import Mathlib

/-!
# Verification of the backend-integrated emotion/attention detector

A shallow embedding of `src/backend/emotion_detector.py` (the canonical
backend-integrated detector of the learning-system repository), together
with theorems settling the frozen claims about it.

Modelling conventions:
* Python floats are modelled as `ℚ` (all the arithmetic relevant to the
  claims is exact: sums, products, comparisons and clamps).
* Python ints are modelled as `ℤ`.
* Bounded `deque(maxlen=n)` ring buffers are modelled as `List`s with an
  explicit capped push (`pushCap`).
* Calls into external libraries (OpenCV colour conversion, the MediaPipe
  face mesh, the joblib classifier) are modelled by fields of a `Frame`
  record carrying the outcome of each call: `Except.ok` for a normal
  return and `Except.error` for a raised exception.  `process_frame`
  itself returns `Except String (FrameResult × DetectorState)`, where a
  top-level `Except.error` means the Python call raises.
-/

namespace EmotionDetector

/-- `FEATURE_ORDER` from `emotion_detector.py` — the fixed training-time
feature-name order handed to the external classifier. -/
def FEATURE_ORDER : List String := [
  "mouth_movement", "mouth_aspect_ratio", "lip_corner_distance", "jaw_drop",
  "left_eye_movement", "right_eye_movement", "left_eyebrow_movement", "right_eyebrow_movement",
  "left_eyebrow_slope", "right_eyebrow_slope", "eyebrow_asymmetry", "nostril_flare",
  "nose_tip_movement", "left_cheek_position", "right_cheek_position", "jaw_width",
  "mouth_eye_ratio", "pose_yaw", "pose_pitch", "pose_roll", "left_eye_ear",
  "right_eye_ear", "eye_asymmetry", "interocular_norm", "mouth_corner_slope",
  "mouth_curvature", "smile_intensity", "brow_eye_dist_left",
  "brow_eye_dist_right", "brow_eye_asymmetry", "cheek_asymmetry", "jaw_angle_deg",
  "nose_to_mouth", "nose_to_chin_norm", "face_width_norm", "face_height_norm", "face_wh_ratio"]

/-- `vectorize_features`: builds the classifier input by looking every name of
`FEATURE_ORDER` up in the computed feature mapping, defaulting a missing name
to `0.0` (`feat_dict.get(name, 0.0)`).  The mapping is modelled as a partial
function `String → Option ℚ`. -/
def vectorize_features (feat_dict : String → Option ℚ) : List ℚ :=
  FEATURE_ORDER.map (fun name => (feat_dict name).getD 0)

/-- Python's `str.lower()` (ASCII case folding suffices for the fixed label
vocabulary involved). -/
def pyLower (s : String) : String := ⟨s.data.map Char.toLower⟩

/-- The `base_focus` dictionary lookup of `calculate_focus_level`, with the
default of 60 for an unknown emotion (`base_focus.get(emotion_lower, 60)`).
The argument is the already lower-cased emotion label. -/
def base_focus_get : String → ℤ
  | "happy" => 85
  | "happiness" => 85
  | "surprised" => 80
  | "surprise" => 80
  | "neutral" => 70
  | "neutrality" => 70
  | "sad" => 55
  | "sadness" => 55
  | "angry" => 35
  | "anger" => 35
  | "fear" => 40
  | "fearful" => 40
  | "disgust" => 30
  | "disgusted" => 30
  | _ => 60

/-- `calculate_focus_level(emotion, gaze_focused)`: table lookup, a 30-point
deduction when the gaze boolean is false (floored at 0), then the final clamp
`min(100, max(0, focus))`. -/
def calculate_focus_level (emotion : String) (gaze_focused : Bool) : ℤ :=
  let focus := base_focus_get (pyLower emotion)
  let focus := if !gaze_focused then max 0 (focus - 30) else focus
  min 100 (max 0 focus)

/-- The focus level assembled by `process_frame` for a tracked face: the value
of `calculate_focus_level` with, when the gaze is unfocused, a further
40-point deduction floored at 0
(`if not is_focused_gaze: base_focus_level = max(0, base_focus_level - 40)`). -/
def frame_focus_level (emotion : String) (is_focused_gaze : Bool) : ℤ :=
  let base_focus_level := calculate_focus_level emotion is_focused_gaze
  if !is_focused_gaze then max 0 (base_focus_level - 40) else base_focus_level

/-- `emotion_to_engagement`: pure lookup from (lower-cased) emotion to the
3-class engagement label. -/
def emotion_to_engagement (emotion : String) : String :=
  let emotion_lower := pyLower emotion
  if emotion_lower ∈ ["neutral", "neutrality", "happy", "happiness", "surprised", "surprise"] then
    "active"
  else if emotion_lower ∈ ["sad", "sadness", "disgust", "disgusted"] then
    "passive"
  else if emotion_lower ∈ ["angry", "anger", "fear", "fearful"] then
    "distracted"
  else
    "passive"

/-- Append to a `deque(maxlen := cap)`: when the buffer is full the leftmost
entry is evicted before the new one is appended on the right. -/
def pushCap {α : Type} (cap : ℕ) (l : List α) (x : α) : List α :=
  if cap ≤ l.length then l.tail ++ [x] else l ++ [x]

/-- `np.mean` over a buffer of rationals (the buffers it is applied to are
non-empty at every call site). -/
def listMean (l : List ℚ) : ℚ := l.sum / l.length

/-- `np.clip(x, lo, hi)` on scalars. -/
def npClip (x lo hi : ℚ) : ℚ := min (max x lo) hi

/-- One entry of `blink_history`: the `{'state': ..., 'start_time': ...}`
dict, with `closed = true` standing for `state == 'closed'`. -/
structure BlinkEntry where
  closed : Bool
  start_time : ℚ
  deriving Repr, DecidableEq

/-- `state == 'closed'` test on the last entry of `blink_history`
(`false` on an empty buffer, matching `len(...) == 0 or ... != 'closed'`). -/
def closedLast (l : List BlinkEntry) : Bool :=
  match l.getLast? with
  | some e => e.closed
  | none => false

/-- `blink_history[-1]['start_time']`; the default is never consulted because
every caller reads it from a buffer that has just received a `closed` entry. -/
def lastStart (l : List BlinkEntry) (d : ℚ) : ℚ :=
  match l.getLast? with
  | some e => e.start_time
  | none => d

/-- `self.max_blink_duration = 0.3` seconds. -/
def max_blink_duration : ℚ := 3/10

/-- The per-subject mutable state of an `EmotionDetector` instance: the model
flags, the ring buffers and the adaptive thresholds
(`__init__`, lines 326–381). -/
structure DetectorState where
  modelLoaded : Bool
  labelEncoderLoaded : Bool
  smoothing_window : ℕ
  recent_predictions : List String
  adaptive_focus_threshold : ℚ
  adaptive_vertical_threshold : ℚ
  adaptive_ear_threshold : ℚ
  wearing_glasses : Bool
  face_distance : ℚ
  distance_history : List ℚ
  lighting_quality : ℚ
  lighting_history : List ℚ
  blink_history : List BlinkEntry
  deriving Repr, DecidableEq

/-- A freshly constructed detector (`__init__` with default
`smoothing_window = 5`); the two booleans say whether the model and label
encoder were loaded. -/
def initDetector (modelLoaded labelEncoderLoaded : Bool) : DetectorState :=
  { modelLoaded := modelLoaded
    labelEncoderLoaded := labelEncoderLoaded
    smoothing_window := 5
    recent_predictions := []
    adaptive_focus_threshold := 35/100
    adaptive_vertical_threshold := 4/10
    adaptive_ear_threshold := 2/10
    wearing_glasses := false
    face_distance := 1
    distance_history := []
    lighting_quality := 1
    lighting_history := []
    blink_history := [] }

/-- `adapt_thresholds` (lines 464–494): three multiplicative factors from
distance, glasses and lighting applied to the calibrated bases, then
`np.clip` to the documented safe ranges. -/
def adapt_thresholds (st : DetectorState) : DetectorState :=
  let base_focus : ℚ := 20/100
  let base_vertical : ℚ := 25/100
  let base_ear : ℚ := 2/10
  let distance_factor :=
    if st.face_distance < 1 then 1 + (1 - st.face_distance) * (2/10)
    else 1 + (st.face_distance - 1) * (15/100)
  let glasses_factor : ℚ := if st.wearing_glasses then 11/10 else 1
  let lighting_factor := 1 + (1 - st.lighting_quality) * (1/10)
  let ft := base_focus * distance_factor * glasses_factor
  let vt := base_vertical * distance_factor
  let et := base_ear * lighting_factor * (if st.wearing_glasses then 9/10 else 1)
  { st with
    adaptive_focus_threshold := npClip ft (18/100) (35/100)
    adaptive_vertical_threshold := npClip vt (22/100) (40/100)
    adaptive_ear_threshold := npClip et (15/100) (28/100) }

/-- `is_blinking(left_ear, right_ear)` (lines 510–539).  `now` stands for the
`time.time()` call.  Returns the blink boolean together with the state whose
`blink_history` received the open/closed transitions. -/
def is_blinking (st : DetectorState) (now left_ear right_ear : ℚ) :
    Bool × DetectorState :=
  let avg_ear := (left_ear + right_ear) / 2
  let threshold := st.adaptive_ear_threshold
  if avg_ear < threshold then
    let hist :=
      if closedLast st.blink_history then st.blink_history
      else pushCap 10 st.blink_history { closed := true, start_time := now }
    let closure_duration := now - lastStart hist now
    (decide (closure_duration < max_blink_duration),
     { st with blink_history := hist })
  else
    let hist :=
      if closedLast st.blink_history then
        pushCap 10 st.blink_history { closed := false, start_time := now }
      else st.blink_history
    (false, { st with blink_history := hist })

/-- `detect_gaze_direction(left_gaze, right_gaze)` (lines 724–763): the 8-way
direction helper, vertical deviation checked first. -/
def detect_gaze_direction (left_h left_v right_h right_v h_threshold v_threshold : ℚ) :
    String :=
  let avg_h := (left_h + right_h) / 2
  let avg_v := (left_v + right_v) / 2
  if |avg_v| > v_threshold then
    if avg_v < -v_threshold then
      if |avg_h| > h_threshold then
        (if avg_h < 0 then "UP-LEFT" else "UP-RIGHT")
      else "UP"
    else
      if |avg_h| > h_threshold then
        (if avg_h < 0 then "DOWN-LEFT" else "DOWN-RIGHT")
      else "DOWN"
  else if |avg_h| > h_threshold then
    (if avg_h < 0 then "LEFT" else "RIGHT")
  else "CENTER"

/-- The inline gaze-direction block of `is_focused_on_screen`
(lines 846–870): vertical gaze is tested per-eye first, then horizontal
centering, producing the display label of the frame result. -/
def gaze_direction_string (left_h left_v right_h right_v focus_threshold vertical_threshold : ℚ) :
    String :=
  let avg_h := (left_h + right_h) / 2
  let looking_up_down :=
    |left_v| > vertical_threshold ∨ |right_v| > vertical_threshold
  let gaze_centered := |left_h| < focus_threshold ∧ |right_h| < focus_threshold
  let avg_v := (left_v + right_v) / 2
  if looking_up_down then
    if avg_v < -vertical_threshold then "UP" else "DOWN"
  else if ¬gaze_centered then
    if avg_h < -focus_threshold then "LEFT"
    else if avg_h > focus_threshold then "RIGHT"
    else "CENTER"
  else "CENTER"

/-- `countOf l x`: the multiplicity of label `x` in the prediction buffer,
i.e. the count `Counter(l)[x]`. -/
def countOf (l : List String) (x : String) : ℕ :=
  (l.filter (fun y => y = x)).length

/-- `Counter(buffer).most_common(1)[0][0]`.  `Counter` counts labels in
first-encounter order and `most_common`'s sort is stable, so the call yields
the first-encountered label of maximal multiplicity; we model it by a left
fold over the buffer that keeps the first label whose count strictly exceeds
the best so far.  The `""` branch mirrors the `IndexError` of
`most_common(1)[0]` on an empty buffer, which no call site reaches. -/
def mostCommon (l : List String) : String :=
  match l with
  | [] => ""
  | x :: xs =>
      xs.foldl (fun best y => if countOf l y > countOf l best then y else best) x

/-- The temporal-smoothing block of `process_frame` (lines 605–611): append
the raw label to the bounded buffer, then take the buffer mode when at least
2 predictions are buffered, otherwise the raw label itself.  Returns
(smoothed label, new buffer). -/
def smooth_step (window : ℕ) (buf : List String) (raw : String) :
    String × List String :=
  let buf' := pushCap window buf raw
  if 2 ≤ buf'.length then (mostCommon buf', buf') else (raw, buf')

/-- The per-frame gaze inputs consumed by `is_focused_on_screen`: the per-eye
iris offsets from `calculate_gaze_ratio`, the per-eye EARs from
`calculate_ear_from_points`, the head deviations from
`calculate_head_pose_deviation`, the glasses heuristic from `detect_glasses`,
the raw distance estimate from `estimate_face_distance`, and the
`time.time()` reading used by the blink machine. -/
structure GazeInputs where
  left_h : ℚ
  left_v : ℚ
  right_h : ℚ
  right_v : ℚ
  left_ear : ℚ
  right_ear : ℚ
  head_h : ℚ
  head_v : ℚ
  glasses : Bool
  distance_estimate : ℚ
  now : ℚ
  deriving Repr, DecidableEq

/-- `is_focused_on_screen` (lines 787–897): glasses/distance update, distance
smoothing over the ring buffer, threshold adaptation, blink discrimination,
head-forward check, the display gaze-direction label and the prioritized
focus decision.  Returns `((is_focused, gaze_direction, avg_ear), state')`. -/
def is_focused_on_screen (st : DetectorState) (g : GazeInputs) :
    (Bool × String × ℚ) × DetectorState :=
  let st := { st with wearing_glasses := g.glasses }
  let dh := pushCap 30 st.distance_history g.distance_estimate
  let st := { st with face_distance := g.distance_estimate, distance_history := dh }
  let st := if 0 < dh.length then { st with face_distance := listMean dh } else st
  let st := adapt_thresholds st
  let avg_ear := (g.left_ear + g.right_ear) / 2
  let blinkOut := is_blinking st g.now g.left_ear g.right_ear
  let is_blink := blinkOut.1
  let st := blinkOut.2
  let ear_threshold := st.adaptive_ear_threshold
  let focus_threshold := st.adaptive_focus_threshold
  let vertical_threshold := st.adaptive_vertical_threshold
  let head_threshold :=
    if st.face_distance < 1 then 4/10 + (1 - st.face_distance) * (3/10)
    else (3/10) * (1 + (st.face_distance - 1) * (2/10))
  let head_forward := g.head_h < head_threshold ∧ g.head_v < head_threshold
  let looking_up_down :=
    |g.left_v| > vertical_threshold ∨ |g.right_v| > vertical_threshold
  let gaze_centered :=
    |g.left_h| < focus_threshold ∧ |g.right_h| < focus_threshold
  let gaze_direction :=
    gaze_direction_string g.left_h g.left_v g.right_h g.right_v
      focus_threshold vertical_threshold
  let is_focused :=
    if avg_ear < ear_threshold ∧ ¬is_blink then false
    else if is_blink then true
    else if looking_up_down then false
    else decide (gaze_centered ∧ head_forward)
  ((is_focused, gaze_direction, avg_ear), st)

/-- One frame result dict assembled by `process_frame`; keys absent from a
given return path are modelled by `none`. -/
structure FrameResult where
  emotion : Option String
  raw_emotion : Option String
  confidence : ℚ
  engagement : String
  focus_level : ℤ
  face_detected : Bool
  is_focused_gaze : Option Bool
  gaze_direction : Option String
  eye_openness : Option ℚ
  wearing_glasses : Option Bool
  face_distance : Option ℚ
  lighting_quality : Option ℚ
  pose : Option (ℚ × ℚ × ℚ)
  error : Option String
  deriving Repr, DecidableEq

/-- The outcomes of the external calls performed inside the `try` block for a
detected face: the classifier's raw label, its confidence, the gaze inputs
and the head pose of the feature dict. -/
structure TrackedExt where
  raw_emotion : String
  confidence : ℚ
  gaze : GazeInputs
  pose : ℚ × ℚ × ℚ
  deriving Repr, DecidableEq

/-- One incoming frame, modelled by the outcomes of the external library
calls `process_frame` performs on it, in program order:
* `gray`: mean/std brightness of the grayscale conversion inside
  `assess_lighting_quality` (that helper catches its own exceptions);
* `enhance`: the CLAHE/colour-conversion work of `enhance_frame_quality`,
  executed only when lighting quality is below 0.7 and NOT covered by any
  `try` in `process_frame`;
* `shape`: the `h, w = frame.shape[:2]` unpacking (raises on an array with
  fewer than two dimensions), also uncovered;
* `mesh`: colour conversion plus `face_mesh.process`, uncovered; `ok b` with
  `b = true` iff `result.multi_face_landmarks` is non-empty;
* `tracked`: the external calls inside the `try` block (feature extraction,
  `predict`/`predict_proba`, landmark reads), whose exception IS caught. -/
structure Frame where
  gray : Except String (ℚ × ℚ)
  enhance : Except String Unit
  shape : Except String (ℕ × ℕ)
  mesh : Except String Bool
  tracked : Except String TrackedExt

/-- `assess_lighting_quality` (lines 437–462): brightness and contrast scores
combined 60/40 and clipped to [0.3, 1]; any internal exception yields 1.0. -/
def assess_lighting_quality (fr : Frame) : ℚ :=
  match fr.gray with
  | Except.error _ => 1
  | Except.ok (mean_brightness, std_brightness) =>
      let brightness_score :=
        if mean_brightness < 60 then mean_brightness / 60
        else if mean_brightness > 200 then (255 - mean_brightness) / 55
        else 1
      let contrast_score := min (std_brightness / 50) 1
      let quality := brightness_score * (6/10) + contrast_score * (4/10)
      npClip quality (3/10) 1

/-- `enhance_frame_quality` (lines 496–508): the OpenCV enhancement runs only
when `lighting_quality < 0.7`; it has no exception handler of its own. -/
def enhance_frame_quality (st : DetectorState) (fr : Frame) : Except String Unit :=
  if st.lighting_quality < 7/10 then fr.enhance else Except.ok ()

/-- The fixed dict returned when the model or label encoder is missing
(lines 551–559). -/
def model_not_loaded_result : FrameResult :=
  { emotion := some "neutral"
    raw_emotion := none
    confidence := 0
    engagement := "passive"
    focus_level := 60
    face_detected := false
    is_focused_gaze := none
    gaze_direction := none
    eye_openness := none
    wearing_glasses := none
    face_distance := none
    lighting_quality := none
    pose := none
    error := some "Model not loaded" }

/-- The dict returned when the mesh reports no face (lines 572–579). -/
def no_face_result : FrameResult :=
  { emotion := none
    raw_emotion := none
    confidence := 0
    engagement := "distracted"
    focus_level := 0
    face_detected := false
    is_focused_gaze := none
    gaze_direction := none
    eye_openness := none
    wearing_glasses := none
    face_distance := none
    lighting_quality := none
    pose := none
    error := none }

/-- The dict returned by the `except` clause of the tracked block
(lines 646–657), carrying the exception text. -/
def tracked_error_result (e : String) : FrameResult :=
  { emotion := none
    raw_emotion := none
    confidence := 0
    engagement := "distracted"
    focus_level := 0
    face_detected := false
    is_focused_gaze := none
    gaze_direction := none
    eye_openness := none
    wearing_glasses := none
    face_distance := none
    lighting_quality := none
    pose := none
    error := some e }

/-- The successful tracked path of `process_frame` (lines 581–644): temporal
smoothing, gaze/attention analysis, engagement mapping and focus scoring. -/
def tracked_success (st : DetectorState) (ext : TrackedExt) :
    FrameResult × DetectorState :=
  let sm := smooth_step st.smoothing_window st.recent_predictions ext.raw_emotion
  let smoothed_emotion := sm.1
  let st := { st with recent_predictions := sm.2 }
  let fo := is_focused_on_screen st ext.gaze
  let is_focused_gaze := fo.1.1
  let gaze_direction := fo.1.2.1
  let eye_openness := fo.1.2.2
  let st := fo.2
  let engagement := emotion_to_engagement smoothed_emotion
  let focus := frame_focus_level smoothed_emotion is_focused_gaze
  ({ emotion := some smoothed_emotion
     raw_emotion := some ext.raw_emotion
     confidence := ext.confidence
     engagement := engagement
     focus_level := focus
     face_detected := true
     is_focused_gaze := some is_focused_gaze
     gaze_direction := some gaze_direction
     eye_openness := some eye_openness
     wearing_glasses := some st.wearing_glasses
     face_distance := some st.face_distance
     lighting_quality := some st.lighting_quality
     pose := some ext.pose
     error := none }, st)

/-- `process_frame` (lines 541–657).  A top-level `Except.error` means the
Python call raises out of `process_frame`; `Except.ok` carries the returned
dict and the detector state after the call.  `Except.bind` sequences the
calls that are NOT covered by the `try` block — their exception propagates
out — while the `fr.tracked` exception is converted into a result. -/
def process_frame (st : DetectorState) (fr : Frame) :
    Except String (FrameResult × DetectorState) :=
  if ¬st.modelLoaded ∨ ¬st.labelEncoderLoaded then
    Except.ok (model_not_loaded_result, st)
  else
    let lq := assess_lighting_quality fr
    let st := { st with
      lighting_quality := lq
      lighting_history := pushCap 30 st.lighting_history lq }
    (enhance_frame_quality st fr).bind fun _ =>
      fr.shape.bind fun _ =>
        fr.mesh.bind fun hasFace =>
          if hasFace then
            match fr.tracked with
            | Except.error e => Except.ok (tracked_error_result e, st)
            | Except.ok ext => Except.ok (tracked_success st ext)
          else
            Except.ok (no_face_result, st)

/-! ## Helper lemmas -/

/-- Every value of the `base_focus` table (the default included) lies in
[30, 85]. -/
lemma base_focus_get_bounds (s : String) :
    30 ≤ base_focus_get s ∧ base_focus_get s ≤ 85 := by
  unfold base_focus_get
  split <;> norm_num

/-- The tracked-path focus level is always within [0, 100]. -/
lemma frame_focus_level_bounds (e : String) (b : Bool) :
    0 ≤ frame_focus_level e b ∧ frame_focus_level e b ≤ 100 := by
  unfold frame_focus_level calculate_focus_level
  cases b <;> simp <;> try omega

/-! ## C1 — unfocused-gaze focus penalty -/

/-- C1, counterexample.  The claim predicts that for the smoothed emotion
"happy" with the gaze-focus boolean false the frame's focus score is the
base 85 minus the single 40-point penalty, i.e. 45 after clamping; the code
returns 15, because `calculate_focus_level` already deducted 30 points for
the unfocused gaze before `process_frame` deducts the further 40. -/
theorem C1_single_penalty_counterexample :
    frame_focus_level "happy" false = 15 ∧
    min 100 (max 0 (base_focus_get (pyLower "happy") - 40)) = 45 := by
  constructor <;> decide

/-- C1, amended: in the canonical backend-integrated detector, for every
smoothed emotion, when the gaze-focus boolean is false the focus score
returned for the frame equals the per-emotion base score minus BOTH the
30-point deduction of `calculate_focus_level` and the 40-point deduction of
`process_frame` — a total of 70 points — floored at 0 (the upper clamp at
100 never binds because every base score is at most 85); the result still
lies in [0, 100]. -/
theorem C1_double_penalty_amended (e : String) :
    frame_focus_level e false = max 0 (base_focus_get (pyLower e) - 70) ∧
    0 ≤ frame_focus_level e false ∧ frame_focus_level e false ≤ 100 := by
  have hb := base_focus_get_bounds (pyLower e)
  simp only [frame_focus_level, calculate_focus_level, Bool.not_false, if_true]
  omega

/-! ## C8 — feature-vector length and order -/

/-- C8, counterexample.  The claim says the vectorized feature vector has
exactly 36 entries; `FEATURE_ORDER` has 37 names, so the vector built from
any feature mapping (here: the empty mapping) has 37 entries, not 36. -/
theorem C8_length_36_counterexample :
    (vectorize_features (fun _ => none)).length ≠ 36 ∧
    (vectorize_features (fun _ => none)).length = 37 := by
  constructor <;> decide

/-- C8, amended: for every feature mapping, the vectorized feature vector
has exactly 37 entries, ordered exactly as `FEATURE_ORDER`; a feature name
missing from the mapping contributes `0.0` at its position rather than
changing the length or the order. -/
theorem C8_vector_37_ordered_amended (feat : String → Option ℚ) :
    (vectorize_features feat).length = 37 ∧
    ∀ i : ℕ, i < 37 →
      (vectorize_features feat).getD i 0 = (feat (FEATURE_ORDER.getD i "")).getD 0 := by
  refine ⟨by simp [vectorize_features, FEATURE_ORDER], ?_⟩
  intro i hi
  interval_cases i <;> rfl

/-- C8, witness for the amended theorem at a concrete mapping: the singleton
mapping sending every name to 1 gives a 37-entry vector whose first entry
(position of `mouth_movement`) is 1. -/
theorem C8_vector_37_ordered_witness :
    (vectorize_features (fun _ => some 1)).length = 37 ∧
    (vectorize_features (fun _ => some 1)).getD 0 0 =
      ((fun (_ : String) => some (1 : ℚ)) (FEATURE_ORDER.getD 0 "")).getD 0 :=
  ⟨(C8_vector_37_ordered_amended (fun _ => some 1)).1,
   (C8_vector_37_ordered_amended (fun _ => some 1)).2 0 (by norm_num)⟩

/-- Inversion for the exception-propagating sequencing. -/
lemma except_bind_eq_ok {ε α β : Type} {x : Except ε α} {f : α → Except ε β} {b : β} :
    x.bind f = Except.ok b ↔ ∃ a, x = Except.ok a ∧ f a = Except.ok b := by
  cases x <;> simp [Except.bind]

/-- The tracked path's result inherits the [0, 100] focus bound. -/
lemma tracked_success_focus_bounds (s : DetectorState) (e : TrackedExt) :
    0 ≤ (tracked_success s e).1.focus_level ∧
      (tracked_success s e).1.focus_level ≤ 100 :=
  frame_focus_level_bounds _ _

/-! ## C3 — focus_level is always an integer in [0, 100] -/

/-- C3: for every detector state and input frame (face present, no face,
model not loaded, or processing error), whenever `process_frame` returns a
result, its `focus_level` is in [0, 100]. -/
theorem C3_focus_level_in_range (st : DetectorState) (fr : Frame)
    (res : FrameResult) (st' : DetectorState)
    (h : process_frame st fr = Except.ok (res, st')) :
    0 ≤ res.focus_level ∧ res.focus_level ≤ 100 := by
  unfold process_frame at h
  split at h
  · cases h
    exact ⟨by decide, by decide⟩
  · obtain ⟨_, -, h⟩ := except_bind_eq_ok.mp h
    obtain ⟨_, -, h⟩ := except_bind_eq_ok.mp h
    obtain ⟨hasFace, -, h⟩ := except_bind_eq_ok.mp h
    by_cases hf : hasFace = true
    · rw [if_pos hf] at h
      cases htr : fr.tracked with
      | error e =>
          rw [htr] at h
          cases h
          exact ⟨by simp [tracked_error_result], by simp [tracked_error_result]⟩
      | ok ext =>
          rw [htr] at h
          cases h
          exact tracked_success_focus_bounds _ _
    · rw [if_neg hf] at h
      cases h
      exact ⟨by decide, by decide⟩

/-- C3, witness: a model-not-loaded detector on a frame produces
`focus_level = 60`, inside [0, 100]. -/
theorem C3_focus_level_in_range_witness :
    0 ≤ model_not_loaded_result.focus_level ∧
      model_not_loaded_result.focus_level ≤ 100 :=
  C3_focus_level_in_range (initDetector false false)
    { gray := Except.ok (100, 50)
      enhance := Except.ok ()
      shape := Except.ok (480, 640)
      mesh := Except.ok false
      tracked := Except.error "unused" }
    model_not_loaded_result (initDetector false false) rfl

/-! ## C10 — model-not-loaded short circuit -/

/-- C10: when the model or the label encoder is not loaded, `process_frame`
returns the fixed record `{emotion: neutral, confidence: 0.0, engagement:
passive, focus_level: 60, face_detected: false, error: Model not loaded}`
with no gaze fields, and the detector state is returned unchanged — in
particular no lighting assessment, buffer push or threshold change
happens. -/
theorem C10_no_model_short_circuit (st : DetectorState) (fr : Frame)
    (h : ¬st.modelLoaded ∨ ¬st.labelEncoderLoaded) :
    process_frame st fr = Except.ok (model_not_loaded_result, st) ∧
    model_not_loaded_result.emotion = some "neutral" ∧
    model_not_loaded_result.confidence = 0 ∧
    model_not_loaded_result.engagement = "passive" ∧
    model_not_loaded_result.focus_level = 60 ∧
    model_not_loaded_result.face_detected = false ∧
    model_not_loaded_result.error = some "Model not loaded" ∧
    model_not_loaded_result.is_focused_gaze = none ∧
    model_not_loaded_result.gaze_direction = none ∧
    model_not_loaded_result.eye_openness = none ∧
    model_not_loaded_result.pose = none := by
  refine ⟨?_, rfl, rfl, rfl, rfl, rfl, rfl, rfl, rfl, rfl, rfl⟩
  unfold process_frame
  rw [if_pos h]

/-- C10, witness: a freshly constructed detector without a model returns the
fixed record on a concrete frame and keeps its state. -/
theorem C10_no_model_short_circuit_witness :
    process_frame (initDetector false true)
      { gray := Except.ok (100, 50)
        enhance := Except.ok ()
        shape := Except.ok (480, 640)
        mesh := Except.ok true
        tracked := Except.error "unused" } =
      Except.ok (model_not_loaded_result, initDetector false true) ∧
    model_not_loaded_result.emotion = some "neutral" ∧
    model_not_loaded_result.confidence = 0 ∧
    model_not_loaded_result.engagement = "passive" ∧
    model_not_loaded_result.focus_level = 60 ∧
    model_not_loaded_result.face_detected = false ∧
    model_not_loaded_result.error = some "Model not loaded" ∧
    model_not_loaded_result.is_focused_gaze = none ∧
    model_not_loaded_result.gaze_direction = none ∧
    model_not_loaded_result.eye_openness = none ∧
    model_not_loaded_result.pose = none :=
  C10_no_model_short_circuit (initDetector false true) _ (Or.inl (by decide))

/-! ## C9 — no-face default result leaves the buffers alone -/

/-- C9: when the landmark provider returns no face for a frame (and the
frame reaches the face check, i.e. the uncovered pre-steps succeed),
`process_frame` returns `face_detected = false`, `engagement = distracted`,
`focus_level = 0`, and the prediction buffer `recent_predictions` and the
blink buffer `blink_history` are exactly those of the incoming state. -/
theorem C9_no_face_result_buffers_unchanged (st : DetectorState) (fr : Frame)
    (hm : st.modelLoaded) (hl : st.labelEncoderLoaded)
    (henh : fr.enhance = Except.ok ())
    (hshape : ∃ p, fr.shape = Except.ok p)
    (hmesh : fr.mesh = Except.ok false) :
    ∃ st', process_frame st fr = Except.ok (no_face_result, st') ∧
      no_face_result.face_detected = false ∧
      no_face_result.engagement = "distracted" ∧
      no_face_result.focus_level = 0 ∧
      no_face_result.emotion = none ∧
      st'.recent_predictions = st.recent_predictions ∧
      st'.blink_history = st.blink_history := by
  obtain ⟨p, hp⟩ := hshape
  refine ⟨{ st with
      lighting_quality := assess_lighting_quality fr
      lighting_history := pushCap 30 st.lighting_history (assess_lighting_quality fr) },
    ?_, rfl, rfl, rfl, rfl, rfl, rfl⟩
  unfold process_frame
  rw [if_neg (by simp [hm, hl])]
  simp only [enhance_frame_quality, henh, hp, hmesh, ite_self]
  rfl

/-- C9, witness: a loaded fresh detector and a concrete no-face frame. -/
theorem C9_no_face_witness :
    ∃ st', process_frame (initDetector true true)
        { gray := Except.ok (100, 50)
          enhance := Except.ok ()
          shape := Except.ok (480, 640)
          mesh := Except.ok false
          tracked := Except.error "unused" } = Except.ok (no_face_result, st') ∧
      no_face_result.face_detected = false ∧
      no_face_result.engagement = "distracted" ∧
      no_face_result.focus_level = 0 ∧
      no_face_result.emotion = none ∧
      st'.recent_predictions = (initDetector true true).recent_predictions ∧
      st'.blink_history = (initDetector true true).blink_history :=
  C9_no_face_result_buffers_unchanged (initDetector true true) _
    (by decide) (by decide) rfl ⟨(480, 640), rfl⟩ rfl

/-! ## C2 — exceptions and the orchestrator boundary -/

/-- C2, counterexample.  The claim says a per-frame call to `process_frame`
never raises.  On a frame whose grayscale statistics computation fails inside
`assess_lighting_quality` (which swallows the exception and reports perfect
lighting, so the enhancement is skipped) but whose
`h, w = frame.shape[:2]` unpacking raises — e.g. a one-dimensional array —
the exception happens BEFORE the `try` block and propagates out of
`process_frame`. -/
theorem C2_never_raises_counterexample :
    process_frame (initDetector true true)
      { gray := Except.error "cv2.error in cvtColor"
        enhance := Except.ok ()
        shape := Except.error "ValueError: not enough values to unpack"
        mesh := Except.ok false
        tracked := Except.error "unused" } =
    Except.error "ValueError: not enough values to unpack" := by
  norm_num [process_frame, enhance_frame_quality, assess_lighting_quality,
    initDetector, Except.bind]

/-- C2, amended: the `try` block of `process_frame` covers only the
tracked-face processing.  Provided the uncovered pre-steps succeed (the
enhancement call, the shape unpacking and the mesh call), `process_frame`
never raises, and any exception arising during tracked processing is
converted into a result with `face_detected = false` and `focus_level = 0`
that carries the error text. -/
theorem C2_tracked_exceptions_converted_amended (st : DetectorState) (fr : Frame)
    (henh : fr.enhance = Except.ok ())
    (hshape : ∃ p, fr.shape = Except.ok p)
    (hmesh : ∃ b, fr.mesh = Except.ok b) :
    (∃ out, process_frame st fr = Except.ok out) ∧
    (∀ e, fr.tracked = Except.error e → fr.mesh = Except.ok true →
      st.modelLoaded → st.labelEncoderLoaded →
      ∃ st', process_frame st fr = Except.ok (tracked_error_result e, st') ∧
        (tracked_error_result e).face_detected = false ∧
        (tracked_error_result e).focus_level = 0 ∧
        (tracked_error_result e).error = some e) := by
  obtain ⟨p, hp⟩ := hshape
  obtain ⟨b, hb⟩ := hmesh
  constructor
  · by_cases hml : ¬st.modelLoaded ∨ ¬st.labelEncoderLoaded
    · exact ⟨(model_not_loaded_result, st), by unfold process_frame; rw [if_pos hml]⟩
    · refine ⟨?_, ?_⟩
      · exact if b then
          (match fr.tracked with
           | Except.error e => (tracked_error_result e,
               { st with
                 lighting_quality := assess_lighting_quality fr
                 lighting_history := pushCap 30 st.lighting_history (assess_lighting_quality fr) })
           | Except.ok ext => tracked_success
               { st with
                 lighting_quality := assess_lighting_quality fr
                 lighting_history := pushCap 30 st.lighting_history (assess_lighting_quality fr) } ext)
          else (no_face_result,
            { st with
              lighting_quality := assess_lighting_quality fr
              lighting_history := pushCap 30 st.lighting_history (assess_lighting_quality fr) })
      · unfold process_frame
        rw [if_neg hml]
        simp only [enhance_frame_quality, henh, hp, hb, ite_self]
        cases b
        · rfl
        · cases htr : fr.tracked <;> simp only [htr] <;> rfl
  · intro e htr hmesh1 hm hl
    refine ⟨{ st with
        lighting_quality := assess_lighting_quality fr
        lighting_history := pushCap 30 st.lighting_history (assess_lighting_quality fr) },
      ?_, rfl, rfl, rfl⟩
    unfold process_frame
    rw [if_neg (by simp [hm, hl])]
    simp only [enhance_frame_quality, henh, hp, hmesh1, htr, ite_self]
    rfl

/-- C2, witness for the amended theorem: a loaded fresh detector and a frame
whose classifier call raises `"predict failed"` yields the converted error
result. -/
theorem C2_tracked_exceptions_converted_witness :
    (∃ out, process_frame (initDetector true true)
        { gray := Except.ok (100, 50)
          enhance := Except.ok ()
          shape := Except.ok (480, 640)
          mesh := Except.ok true
          tracked := Except.error "predict failed" } = Except.ok out) ∧
    (∃ st', process_frame (initDetector true true)
        { gray := Except.ok (100, 50)
          enhance := Except.ok ()
          shape := Except.ok (480, 640)
          mesh := Except.ok true
          tracked := Except.error "predict failed" } =
        Except.ok (tracked_error_result "predict failed", st') ∧
      (tracked_error_result "predict failed").face_detected = false ∧
      (tracked_error_result "predict failed").focus_level = 0 ∧
      (tracked_error_result "predict failed").error = some "predict failed") := by
  have h := C2_tracked_exceptions_converted_amended (initDetector true true)
    { gray := Except.ok (100, 50)
      enhance := Except.ok ()
      shape := Except.ok (480, 640)
      mesh := Except.ok true
      tracked := Except.error "predict failed" }
    rfl ⟨(480, 640), rfl⟩ ⟨true, rfl⟩
  exact ⟨h.1, h.2 "predict failed" rfl rfl (by decide) (by decide)⟩

/-! ## C6 — adaptive thresholds stay inside their clamp ranges -/

/-- `np.clip` output lies between its bounds whenever `lo ≤ hi`. -/
lemma npClip_bounds (x lo hi : ℚ) (h : lo ≤ hi) :
    lo ≤ npClip x lo hi ∧ npClip x lo hi ≤ hi :=
  ⟨le_min (le_max_right _ _) h, min_le_right _ _⟩

/-- C6: for every state with `face_distance` in [0.4, 2.5] and
`lighting_quality` in [0.3, 1.0] and either glasses flag, after
`adapt_thresholds` the focus threshold lies in [0.18, 0.35], the vertical
threshold in [0.22, 0.40] and the EAR threshold in [0.15, 0.28]. -/
theorem C6_adaptive_thresholds_in_bounds (st : DetectorState)
    (hd1 : 2/5 ≤ st.face_distance) (hd2 : st.face_distance ≤ 5/2)
    (hl1 : 3/10 ≤ st.lighting_quality) (hl2 : st.lighting_quality ≤ 1) :
    (18/100 ≤ (adapt_thresholds st).adaptive_focus_threshold ∧
      (adapt_thresholds st).adaptive_focus_threshold ≤ 35/100) ∧
    (22/100 ≤ (adapt_thresholds st).adaptive_vertical_threshold ∧
      (adapt_thresholds st).adaptive_vertical_threshold ≤ 40/100) ∧
    (15/100 ≤ (adapt_thresholds st).adaptive_ear_threshold ∧
      (adapt_thresholds st).adaptive_ear_threshold ≤ 28/100) :=
  ⟨npClip_bounds _ _ _ (by norm_num),
   npClip_bounds _ _ _ (by norm_num),
   npClip_bounds _ _ _ (by norm_num)⟩

/-- C6, witness: a fresh detector (distance 1, lighting 1, no glasses). -/
theorem C6_adaptive_thresholds_in_bounds_witness :
    (18/100 ≤ (adapt_thresholds (initDetector true true)).adaptive_focus_threshold ∧
      (adapt_thresholds (initDetector true true)).adaptive_focus_threshold ≤ 35/100) ∧
    (22/100 ≤ (adapt_thresholds (initDetector true true)).adaptive_vertical_threshold ∧
      (adapt_thresholds (initDetector true true)).adaptive_vertical_threshold ≤ 40/100) ∧
    (15/100 ≤ (adapt_thresholds (initDetector true true)).adaptive_ear_threshold ∧
      (adapt_thresholds (initDetector true true)).adaptive_ear_threshold ≤ 28/100) :=
  C6_adaptive_thresholds_in_bounds (initDetector true true)
    (by norm_num [initDetector]) (by norm_num [initDetector])
    (by norm_num [initDetector]) (by norm_num [initDetector])

/-! ## C4 — gaze-direction labels -/

/-- The 8-way gaze label vocabulary of the spec (eight directions plus
CENTER). -/
def eightWayLabels : List String :=
  ["CENTER", "LEFT", "RIGHT", "UP", "DOWN",
   "UP-LEFT", "UP-RIGHT", "DOWN-LEFT", "DOWN-RIGHT"]

/-- C4: for every gaze-ratio input and thresholds, the `gaze_direction`
label the frame result carries (computed by the inline block of
`is_focused_on_screen`) is drawn from the 8-way label set, and vertical
deviation takes priority: when either eye's vertical ratio exceeds the
vertical threshold the label is UP or DOWN regardless of the horizontal
ratios.  The same holds of the 8-way helper `detect_gaze_direction`: its
label is drawn from the same set, and when the averaged vertical deviation
exceeds the vertical threshold the label is one of the six vertical
labels. -/
theorem C4_gaze_direction_labels (lh lv rh rv ft vt : ℚ) :
    gaze_direction_string lh lv rh rv ft vt ∈ eightWayLabels ∧
    ((|lv| > vt ∨ |rv| > vt) →
      gaze_direction_string lh lv rh rv ft vt = "UP" ∨
      gaze_direction_string lh lv rh rv ft vt = "DOWN") ∧
    detect_gaze_direction lh lv rh rv ft vt ∈ eightWayLabels ∧
    (|(lv + rv) / 2| > vt →
      detect_gaze_direction lh lv rh rv ft vt ∈
        (["UP", "DOWN", "UP-LEFT", "UP-RIGHT", "DOWN-LEFT", "DOWN-RIGHT"] : List String)) := by
  refine ⟨?_, ?_, ?_, ?_⟩
  · simp only [gaze_direction_string]
    split_ifs <;> simp [eightWayLabels]
  · intro h
    simp only [gaze_direction_string]
    rw [if_pos h]
    split_ifs <;> simp
  · simp only [detect_gaze_direction]
    split_ifs <;> simp [eightWayLabels]
  · intro h
    simp only [detect_gaze_direction]
    rw [if_pos h]
    split_ifs <;> simp

/-- C4, witness: looking far down with both eyes (ratios (0, 1)) under the
default thresholds gives "DOWN" from both the result path and the 8-way
helper. -/
theorem C4_gaze_direction_labels_witness :
    gaze_direction_string 0 1 0 1 (20/100) (25/100) ∈ eightWayLabels ∧
    (gaze_direction_string 0 1 0 1 (20/100) (25/100) = "UP" ∨
      gaze_direction_string 0 1 0 1 (20/100) (25/100) = "DOWN") ∧
    detect_gaze_direction 0 1 0 1 (20/100) (25/100) ∈ eightWayLabels ∧
    detect_gaze_direction 0 1 0 1 (20/100) (25/100) ∈
      (["UP", "DOWN", "UP-LEFT", "UP-RIGHT", "DOWN-LEFT", "DOWN-RIGHT"] : List String) := by
  have h := C4_gaze_direction_labels 0 1 0 1 (20/100) (25/100)
  exact ⟨h.1, h.2.1 (Or.inl (by norm_num)), h.2.2.1, h.2.2.2 (by norm_num)⟩

/-! ## C5 — blink iff closure shorter than 0.3 s -/

/-- The capped push always leaves the new element at the right end. -/
lemma getLast?_pushCap {α : Type} (cap : ℕ) (l : List α) (x : α) :
    (pushCap cap l x).getLast? = some x := by
  unfold pushCap
  split <;> simp

/-- C5: whenever the averaged EAR is below the adaptive EAR threshold (an
eye closure), the blink machine leaves a `closed` transition with some
timestamp `t` at the end of `blink_history`, and the closure is classified
as a blink IF AND ONLY IF the elapsed time since that recorded
open-to-closed transition is strictly below 0.3 s; a closure of elapsed
time ≥ 0.3 s is never a blink. -/
theorem C5_blink_iff_short_closure (st : DetectorState) (now le re : ℚ)
    (h : (le + re) / 2 < st.adaptive_ear_threshold) :
    ∃ t, (is_blinking st now le re).2.blink_history.getLast? =
        some { closed := true, start_time := t } ∧
      ((is_blinking st now le re).1 = true ↔ now - t < max_blink_duration) := by
  simp only [is_blinking]
  rw [if_pos h]
  by_cases hc : closedLast st.blink_history = true
  · rw [if_pos hc]
    unfold closedLast at hc
    cases hx : st.blink_history.getLast? with
    | none => rw [hx] at hc; exact absurd hc (by simp)
    | some e =>
        rw [hx] at hc
        obtain ⟨ec, et⟩ := e
        cases hc
        refine ⟨et, by simpa using hx, ?_⟩
        simp [lastStart, hx]
  · rw [if_neg hc]
    refine ⟨now, by simpa using getLast?_pushCap 10 st.blink_history _, ?_⟩
    simp [lastStart, getLast?_pushCap]

/-- C5, witness: a fresh detector seeing closed eyes (both EARs 0) at time
1 records the transition at time 1 and classifies it as a blink (elapsed
0 < 0.3). -/
theorem C5_blink_iff_short_closure_witness :
    (0 + 0 : ℚ) / 2 < (initDetector true true).adaptive_ear_threshold ∧
    ∃ t, (is_blinking (initDetector true true) 1 0 0).2.blink_history.getLast? =
        some { closed := true, start_time := t } ∧
      ((is_blinking (initDetector true true) 1 0 0).1 = true ↔
        1 - t < max_blink_duration) :=
  ⟨by norm_num [initDetector],
   C5_blink_iff_short_closure (initDetector true true) 1 0 0
     (by norm_num [initDetector])⟩

/-! ## C7 — temporal smoother: mode with first-encounter tie-break -/

/-- The left fold keeping the first strict-count improvement computes an
element of the list whose score is maximal and whose first occurrence is
earliest among equal scores.  Stated with an explicit processed prefix as
the induction invariant. -/
lemma foldl_argmax_spec {α : Type} [DecidableEq α] (f : α → ℕ) (l : List α) :
    ∀ (suf pre : List α), l = pre ++ suf →
      ∀ k, k ∈ pre →
        (∀ z ∈ pre, f z ≤ f k) →
        (∀ z ∈ pre, f z = f k → l.indexOf k ≤ l.indexOf z) →
        (suf.foldl (fun best y => if f y > f best then y else best) k ∈ l ∧
         (∀ z ∈ l, f z ≤ f (suf.foldl (fun best y => if f y > f best then y else best) k)) ∧
         (∀ z ∈ l, f z = f (suf.foldl (fun best y => if f y > f best then y else best) k) →
            l.indexOf (suf.foldl (fun best y => if f y > f best then y else best) k) ≤ l.indexOf z)) := by
  intro suf
  induction suf with
  | nil =>
      intro pre hl k hk hmax hfirst
      simp only [List.foldl_nil]
      subst hl
      simp only [List.append_nil] at hk hmax hfirst ⊢
      exact ⟨hk, hmax, hfirst⟩
  | cons y rest ih =>
      intro pre hl k hk hmax hfirst
      simp only [List.foldl_cons]
      apply ih (pre ++ [y]) (by rw [hl, List.append_assoc]; rfl)
      · by_cases hy : f y > f k
        · rw [if_pos hy]; simp
        · rw [if_neg hy]; exact List.mem_append_left _ hk
      · intro z hz
        rcases List.mem_append.mp hz with hzp | hzy
        · by_cases hy : f y > f k
          · rw [if_pos hy]; exact le_of_lt (lt_of_le_of_lt (hmax z hzp) hy)
          · rw [if_neg hy]; exact hmax z hzp
        · have hzy' : z = y := by simpa using hzy
          subst hzy'
          by_cases hy : f z > f k
          · rw [if_pos hy]
          · rw [if_neg hy]; exact le_of_not_lt hy
      · intro z hz hfz
        rcases List.mem_append.mp hz with hzp | hzy
        · by_cases hy : f y > f k
          · rw [if_pos hy] at hfz ⊢
            exact absurd hfz (by have := hmax z hzp; omega)
          · rw [if_neg hy] at hfz ⊢
            exact hfirst z hzp hfz
        · have hzy' : z = y := by simpa using hzy
          subst hzy'
          by_cases hy : f z > f k
          · rw [if_pos hy]
          · rw [if_neg hy] at hfz ⊢
            by_cases hyp : z ∈ pre
            · exact hfirst z hyp hfz
            · have h1 : l.indexOf k < pre.length := by
                rw [hl, List.indexOf_append_of_mem hk]
                exact List.indexOf_lt_length.mpr hk
              have h2 : pre.length ≤ l.indexOf z := by
                rw [hl, List.indexOf_append_of_not_mem hyp]
                exact Nat.le_add_right _ _
              omega

/-- `mostCommon` of a non-empty buffer is a buffer element of maximal
multiplicity whose first occurrence is earliest among the labels that tie
for the maximum. -/
lemma mostCommon_spec (l : List String) (hne : l ≠ []) :
    mostCommon l ∈ l ∧
    (∀ y ∈ l, countOf l y ≤ countOf l (mostCommon l)) ∧
    (∀ y ∈ l, countOf l y = countOf l (mostCommon l) →
      l.indexOf (mostCommon l) ≤ l.indexOf y) := by
  cases l with
  | nil => exact absurd rfl hne
  | cons x xs =>
      have h := foldl_argmax_spec (countOf (x :: xs)) (x :: xs) xs [x]
        (by simp) x (by simp) (by simp) (by simp)
      simpa [mostCommon] using h

/-- C7: after pushing the raw label, when fewer than 2 predictions are
buffered the smoothed label is the raw label itself; with at least 2, the
smoothed label is a most frequent entry of the bounded buffer, and any
label tying for that count first occurs in the buffer no earlier than the
smoothed label (ties resolve to the first-encountered label); and pushing
5 identical raw labels into a fresh smoother with window 5 yields that
same label. -/
theorem C7_smoother_mode_first_tie (window : ℕ) (buf : List String) (raw : String) :
    ((smooth_step window buf raw).2.length < 2 →
      (smooth_step window buf raw).1 = raw) ∧
    (2 ≤ (smooth_step window buf raw).2.length →
      (smooth_step window buf raw).1 ∈ (smooth_step window buf raw).2 ∧
      (∀ y ∈ (smooth_step window buf raw).2,
        countOf (smooth_step window buf raw).2 y ≤
          countOf (smooth_step window buf raw).2 (smooth_step window buf raw).1) ∧
      (∀ y ∈ (smooth_step window buf raw).2,
        countOf (smooth_step window buf raw).2 y =
          countOf (smooth_step window buf raw).2 (smooth_step window buf raw).1 →
        (smooth_step window buf raw).2.indexOf (smooth_step window buf raw).1 ≤
          (smooth_step window buf raw).2.indexOf y)) ∧
    (∀ s : String,
      (smooth_step 5 (smooth_step 5 (smooth_step 5 (smooth_step 5
        (smooth_step 5 [] s).2 s).2 s).2 s).2 s).1 = s) := by
  simp only [smooth_step]
  split_ifs with hcond
  · refine ⟨?_, ?_, ?_⟩
    · intro hlen
      simp only at hlen
      omega
    · intro _
      have hne : pushCap window buf raw ≠ [] := by
        intro hnil
        rw [hnil] at hcond
        simp at hcond
      simpa using mostCommon_spec _ hne
    · intro s
      simp [smooth_step, pushCap, mostCommon, countOf]
  · refine ⟨fun _ => rfl, ?_, ?_⟩
    · intro hlen
      simp only at hlen
      exact absurd hlen hcond
    · intro s
      simp [smooth_step, pushCap, mostCommon, countOf]

/-- C7, witness: pushing "happy" into the two-entry buffer
["sad", "happy"] (window 5) gives the buffer ["sad", "happy", "happy"],
whose mode "happy" is returned. -/
theorem C7_smoother_mode_first_tie_witness :
    (2 ≤ (smooth_step 5 ["sad", "happy"] "happy").2.length →
      (smooth_step 5 ["sad", "happy"] "happy").1 ∈
        (smooth_step 5 ["sad", "happy"] "happy").2) ∧
    (smooth_step 5 (smooth_step 5 (smooth_step 5 (smooth_step 5
      (smooth_step 5 [] "happy").2 "happy").2 "happy").2 "happy").2 "happy").1 =
      "happy" :=
  ⟨fun h => ((C7_smoother_mode_first_tie 5 ["sad", "happy"] "happy").2.1 h).1,
   (C7_smoother_mode_first_tie 5 [] "x").2.2 "happy"⟩

end EmotionDetector
